import Mathlib

/-!
# Bring-up sequence of the IIO demo application

Shallow embedding of `projects/iio_demo/src/main.c`: the two UART adapters
`iio_uart_write` / `iio_uart_read`, `platform_init` and `main`.

The collaborators the file calls (power service, interrupt controller, UART,
IIO application, IIO demo device) are not part of the file; they are taken as
instrumented fakes (`Env`): every call appends one `Event` (the call with its
arguments, the returned status, the descriptor stored through the out
parameter) to the run's trace.  Statuses are `int32_t` values on which the code
only ever compares against zero, so they are kept as `Int`.
-/

namespace IioDemo

/-! ## Constants of headers that are not part of the file -/

/-- Modelled from the spec: `error.h` is not among the sources; success is the
`0` sentinel. -/
def SUCCESS : Int := 0

/-- Modelled from the spec: `error.h` is not among the sources; the opaque
failure is the negative status `-1`. -/
def FAILURE : Int := -1

/-- Modelled from the spec: `error.h` is not among the sources; a failure is
"represented as a negative status value". -/
def IS_ERR_VALUE (x : Int) : Bool := decide (x < 0)

/-- Size of each static buffer of the ADuCM profile: `#define MAX_BUFF_SIZE 3000`. -/
def MAX_BUFF_SIZE : Nat := 3000

/-- Values of the macros of `parameters.h` / `app_config.h` and of the power
driver header, none of which is part of the file. -/
structure Params where
  INTC_DEVICE_ID : Nat
  UART_DEVICE_ID : Nat
  UART_BAUDRATE : Nat
  UART_IRQ_ID : Nat
  DAC_DDR_BASEADDR : Nat
  ADC_DDR_BASEADDR : Nat
  ADI_PWR_SUCCESS : Int
deriving DecidableEq, Repr

/-- The two objects `static uint8_t in_buff[MAX_BUFF_SIZE];` and
`static uint8_t out_buff[MAX_BUFF_SIZE];` of the ADuCM profile, each with the
address of its first byte.  The arrays are two distinct objects of a C program
for a 32-bit target: each lies inside the address space and their storage does
not overlap, wherever the toolchain places them. -/
structure StaticBuffers where
  in_buff : Nat
  out_buff : Nat
  in_buff_fits : in_buff + MAX_BUFF_SIZE ≤ 2 ^ 32
  out_buff_fits : out_buff + MAX_BUFF_SIZE ≤ 2 ^ 32
  distinct_objects : in_buff + MAX_BUFF_SIZE ≤ out_buff ∨ out_buff + MAX_BUFF_SIZE ≤ in_buff
deriving DecidableEq

/-- The hardware profile selected at build time.  `XILINX_PLATFORM` carries
whether `XPAR_INTC_SINGLE_DEVICE_ID` and `XPAR_XUARTLITE_NUM_INSTANCES` are
defined; `ADUCM_PLATFORM` carries the two static arrays `in_buff` and
`out_buff` the profile declares. -/
inductive Platform where
  | XILINX_PLATFORM (XPAR_INTC_SINGLE_DEVICE_ID XPAR_XUARTLITE_NUM_INSTANCES : Bool)
  | ADUCM_PLATFORM (bufs : StaticBuffers)
deriving DecidableEq

/-- `OUTPUT_BASE_ADDRESS`: `DAC_DDR_BASEADDR` on Xilinx, `(uint32_t)out_buff`
on ADuCM. -/
def OUTPUT_BASE_ADDRESS (P : Params) : Platform → Nat
  | .XILINX_PLATFORM _ _ => P.DAC_DDR_BASEADDR
  | .ADUCM_PLATFORM bufs => bufs.out_buff % 2 ^ 32

/-- `INPUT_BASE_ADDRESS`: `ADC_DDR_BASEADDR` on Xilinx, `(uint32_t)in_buff`
on ADuCM. -/
def INPUT_BASE_ADDRESS (P : Params) : Platform → Nat
  | .XILINX_PLATFORM _ _ => P.ADC_DDR_BASEADDR
  | .ADUCM_PLATFORM bufs => bufs.in_buff % 2 ^ 32

/-- `OUTPUT_SIZE`: 10000 on Xilinx, `MAX_BUFF_SIZE` on ADuCM. -/
def OUTPUT_SIZE : Platform → Nat
  | .XILINX_PLATFORM _ _ => 10000
  | .ADUCM_PLATFORM _ => MAX_BUFF_SIZE

/-- `INPUT_SIZE`: 10000 on Xilinx, `MAX_BUFF_SIZE` on ADuCM. -/
def INPUT_SIZE : Platform → Nat
  | .XILINX_PLATFORM _ _ => 10000
  | .ADUCM_PLATFORM _ => MAX_BUFF_SIZE

/-! ## Parameter structures -/

inductive ADI_CLOCK_ID where
  | ADI_CLOCK_HCLK
  | ADI_CLOCK_PCLK
deriving DecidableEq, Repr

inductive xil_irq_type where
  | IRQ_PL
  | IRQ_PS
deriving DecidableEq, Repr

inductive xil_uart_type where
  | UART_PL
  | UART_PS
deriving DecidableEq, Repr

structure xil_irq_init_param where
  type : xil_irq_type
deriving DecidableEq, Repr

structure xil_uart_init_param where
  type : xil_uart_type
  irq_id : Nat
  irq_desc : Nat
deriving DecidableEq, Repr

inductive uart_parity where
  | UART_NO_PARITY
deriving DecidableEq, Repr

inductive uart_stop where
  | UART_ONE_STOPBIT
deriving DecidableEq, Repr

inductive uart_word_len where
  | UART_WORDLEN_8BITS
deriving DecidableEq, Repr

structure aducm_uart_init_param where
  parity : uart_parity
  stop_bits : uart_stop
  word_length : uart_word_len
deriving DecidableEq, Repr

/-- What `irq_init_param.extra` points to at the time of the call. -/
inductive irq_extra where
  | xil (p : xil_irq_init_param)
  | aducm (dummy : Int)
deriving DecidableEq, Repr

/-- What `uart_init_param.extra` points to at the time of the call. -/
inductive uart_extra where
  | xil (p : xil_uart_init_param)
  | aducm (p : aducm_uart_init_param)
deriving DecidableEq, Repr

structure irq_init_param where
  irq_ctrl_id : Nat
  extra : irq_extra
deriving DecidableEq, Repr

structure uart_init_param where
  device_id : Nat
  baud_rate : Nat
  extra : uart_extra
deriving DecidableEq, Repr

/-- The two functions of the file whose address is taken. -/
inductive FnRef where
  | iio_uart_read
  | iio_uart_write
deriving DecidableEq, Repr

structure iio_server_ops where
  read : FnRef
  write : FnRef
deriving DecidableEq, Repr

structure iio_app_init_param where
  iio_server_ops : iio_server_ops
deriving DecidableEq, Repr

structure iio_demo_init_param where
  name : String
  num_channels : Nat
  ddr_base_addr : Nat
deriving DecidableEq, Repr

/-! ## Instrumented collaborators -/

/-- One call made by the file, with the arguments it passes.  Descriptors are
pointer values; buffers are the bytes the pointer refers to. -/
inductive Call where
  | adi_pwr_Init
  | adi_pwr_SetClockDivider (clk : ADI_CLOCK_ID) (div : Nat)
  | adi_initComponents
  | platform_init
  | irq_ctrl_init (p : irq_init_param)
  | uart_init (p : uart_init_param)
  | irq_global_enable (desc : Nat)
  | iio_app_init (p : iio_app_init_param)
  | iio_demo_init (p : iio_demo_init_param)
  | iio_app (desc : Nat)
  | uart_write (desc : Nat) (data : List (Fin 256)) (len : Nat)
  | uart_read (desc : Nat) (data : List (Fin 256)) (len : Nat)
deriving DecidableEq, Repr

/-- A completed call: what was called, the status it returned and, for an
initialising call, the descriptor it stored through its out parameter. -/
structure Event where
  call : Call
  status : Int
  desc : Option Nat
deriving DecidableEq, Repr

/-- The faked collaborators: for each callee, what it returns on given
arguments (status, and the descriptor written through the out parameter). -/
structure Env where
  adi_pwr_Init : Int
  adi_pwr_SetClockDivider : ADI_CLOCK_ID → Nat → Int
  adi_initComponents : Int
  irq_ctrl_init : irq_init_param → Int × Nat
  uart_init : uart_init_param → Int × Nat
  irq_global_enable : Nat → Int
  iio_app_init : iio_app_init_param → Int × Nat
  iio_demo_init : iio_demo_init_param → Int × Nat
  iio_app : Nat → Int
  uart_write : Nat → List (Fin 256) → Nat → Int
  uart_read : Nat → List (Fin 256) → Nat → Int × List (Fin 256)

/-- The file-scope variable `static struct uart_desc *uart_desc`. -/
structure Globals where
  uart_desc : Nat
deriving DecidableEq, Repr

/-- Outcome of a function of the file: returned status, calls made, globals. -/
structure Run where
  status : Int
  trace : List Event
  globals : Globals

/-! ## The functions of the file -/

/-- `iio_uart_write`: `return uart_write(uart_desc, (const uint8_t *)buf, len);` -/
def iio_uart_write (env : Env) (g : Globals) (buf : List (Fin 256)) (len : Nat) :
    Int × List Event :=
  let ret := env.uart_write g.uart_desc buf len
  (ret, [⟨Call.uart_write g.uart_desc buf len, ret, none⟩])

/-- `iio_uart_read`: `return uart_read(uart_desc, (uint8_t *)buf, len);`
The second component is the buffer as `uart_read` left it. -/
def iio_uart_read (env : Env) (g : Globals) (buf : List (Fin 256)) (len : Nat) :
    Int × List (Fin 256) × List Event :=
  let ret := env.uart_read g.uart_desc buf len
  (ret.1, ret.2, [⟨Call.uart_read g.uart_desc buf len, ret.1, none⟩])

/-- `platform_init`: status and the calls made. -/
def platform_init (P : Params) (pf : Platform) (env : Env) : Int × List Event :=
  match pf with
  | .ADUCM_PLATFORM _ =>
    let r1 := env.adi_pwr_Init
    let t1 : List Event := [⟨Call.adi_pwr_Init, r1, none⟩]
    if P.ADI_PWR_SUCCESS ≠ r1 then (FAILURE, t1) else
    let r2 := env.adi_pwr_SetClockDivider .ADI_CLOCK_HCLK 1
    let t2 := t1 ++ [⟨Call.adi_pwr_SetClockDivider .ADI_CLOCK_HCLK 1, r2, none⟩]
    if P.ADI_PWR_SUCCESS ≠ r2 then (FAILURE, t2) else
    let r3 := env.adi_pwr_SetClockDivider .ADI_CLOCK_PCLK 1
    let t3 := t2 ++ [⟨Call.adi_pwr_SetClockDivider .ADI_CLOCK_PCLK 1, r3, none⟩]
    if P.ADI_PWR_SUCCESS ≠ r3 then (FAILURE, t3) else
    let t4 := t3 ++ [⟨Call.adi_initComponents, env.adi_initComponents, none⟩]
    (SUCCESS, t4)
  | .XILINX_PLATFORM _ _ => (SUCCESS, [])

/-- Initialiser of `platform_irq_init_par`. -/
def platform_irq_init_par : Platform → irq_extra
  | .XILINX_PLATFORM intc_single _ =>
    .xil { type := if intc_single then .IRQ_PL else .IRQ_PS }
  | .ADUCM_PLATFORM _ => .aducm 0

/-- Initialiser of `platform_uart_init_par`; `irq_desc` is the value the local
variable `irq_desc` holds when the initialiser is evaluated. -/
def platform_uart_init_par (P : Params) (irq_desc : Nat) : Platform → uart_extra
  | .XILINX_PLATFORM _ uartlite =>
    .xil { type := if uartlite then .UART_PL else .UART_PS,
           irq_id := P.UART_IRQ_ID,
           irq_desc := irq_desc }
  | .ADUCM_PLATFORM _ =>
    .aducm { parity := .UART_NO_PARITY,
             stop_bits := .UART_ONE_STOPBIT,
             word_length := .UART_WORDLEN_8BITS }

/-- `main`.  `irq_desc0` is the indeterminate content of the local variable
`irq_desc` before anything is stored in it; `g` holds the file-scope
`uart_desc`. -/
def main (P : Params) (pf : Platform) (env : Env) (irq_desc0 : Nat) (g : Globals) : Run :=
  let demo_device_output := "demo_device_output"
  let demo_device_input := "demo_device_input"
  let pi := platform_init P pf env
  let status := pi.1
  let t := pi.2 ++ [⟨Call.platform_init, status, none⟩]
  if IS_ERR_VALUE status then ⟨status, t, g⟩ else
  let platform_irq_init_par := platform_irq_init_par pf
  let platform_uart_init_par := platform_uart_init_par P irq_desc0 pf
  let irq_init_param : irq_init_param :=
    { irq_ctrl_id := P.INTC_DEVICE_ID, extra := platform_irq_init_par }
  let r := env.irq_ctrl_init irq_init_param
  let status := r.1
  let irq_desc := r.2
  let t := t ++ [⟨Call.irq_ctrl_init irq_init_param, status, some irq_desc⟩]
  if status < 0 then ⟨status, t, g⟩ else
  let uart_init_par : uart_init_param :=
    { device_id := P.UART_DEVICE_ID, baud_rate := P.UART_BAUDRATE,
      extra := platform_uart_init_par }
  let r := env.uart_init uart_init_par
  let status := r.1
  let g : Globals := { uart_desc := r.2 }
  let t := t ++ [⟨Call.uart_init uart_init_par, status, some r.2⟩]
  if status < 0 then ⟨FAILURE, t, g⟩ else
  let status := env.irq_global_enable irq_desc
  let t := t ++ [⟨Call.irq_global_enable irq_desc, status, none⟩]
  if status < 0 then ⟨status, t, g⟩ else
  let uart_iio_server_ops : iio_server_ops :=
    { read := .iio_uart_read, write := .iio_uart_write }
  let iio_app_init_par : iio_app_init_param :=
    { iio_server_ops := uart_iio_server_ops }
  let r := env.iio_app_init iio_app_init_par
  let status := r.1
  let iio_app_desc := r.2
  let t := t ++ [⟨Call.iio_app_init iio_app_init_par, status, some iio_app_desc⟩]
  if status < 0 then ⟨status, t, g⟩ else
  let iio_demo_out_init_par : iio_demo_init_param :=
    { name := demo_device_output, num_channels := 4,
      ddr_base_addr := OUTPUT_BASE_ADDRESS P pf }
  let r := env.iio_demo_init iio_demo_out_init_par
  let status := r.1
  let t := t ++ [⟨Call.iio_demo_init iio_demo_out_init_par, status, some r.2⟩]
  if status < 0 then ⟨status, t, g⟩ else
  let iio_demo_in_init_par : iio_demo_init_param :=
    { name := demo_device_input, num_channels := 4,
      ddr_base_addr := INPUT_BASE_ADDRESS P pf }
  let r := env.iio_demo_init iio_demo_in_init_par
  let status := r.1
  let t := t ++ [⟨Call.iio_demo_init iio_demo_in_init_par, status, some r.2⟩]
  if status < 0 then ⟨status, t, g⟩ else
  let status := env.iio_app iio_app_desc
  ⟨status, t ++ [⟨Call.iio_app iio_app_desc, status, none⟩], g⟩


/-! ## Reading a trace -/

/-- The calls that are bring-up stages of `main`. -/
def Call.isStage : Call → Bool
  | .platform_init => true
  | .irq_ctrl_init _ => true
  | .uart_init _ => true
  | .irq_global_enable _ => true
  | .iio_app_init _ => true
  | .iio_demo_init _ => true
  | _ => false

/-- Position of a call in the order of stages the specification lists:
interrupt enable before transport bring-up. -/
def specStage : Call → Nat
  | .adi_pwr_Init => 1
  | .adi_pwr_SetClockDivider _ _ => 1
  | .adi_initComponents => 1
  | .platform_init => 1
  | .irq_ctrl_init _ => 2
  | .irq_global_enable _ => 3
  | .uart_init _ => 4
  | .iio_app_init _ => 5
  | .iio_demo_init p => if p.name = "demo_device_output" then 6 else 7
  | .iio_app _ => 8
  | .uart_write _ _ _ => 8
  | .uart_read _ _ _ => 8

/-- Position of a call in the order in which `main` makes the calls:
transport bring-up before interrupt enable. -/
def codeStage : Call → Nat
  | .adi_pwr_Init => 1
  | .adi_pwr_SetClockDivider _ _ => 1
  | .adi_initComponents => 1
  | .platform_init => 1
  | .irq_ctrl_init _ => 2
  | .uart_init _ => 3
  | .irq_global_enable _ => 4
  | .iio_app_init _ => 5
  | .iio_demo_init p => if p.name = "demo_device_output" then 6 else 7
  | .iio_app _ => 8
  | .uart_write _ _ _ => 8
  | .uart_read _ _ _ => 8

/-! ## Concrete collaborators used to evaluate the code -/

/-- Some values for the macros of the missing headers. -/
def P0 : Params :=
  { INTC_DEVICE_ID := 0, UART_DEVICE_ID := 0, UART_BAUDRATE := 115200, UART_IRQ_ID := 53,
    DAC_DDR_BASEADDR := 0x800000, ADC_DDR_BASEADDR := 0xA00000, ADI_PWR_SUCCESS := 0 }

/-- A Xilinx profile (PS interrupt controller, PS UART). -/
def xilinx : Platform := .XILINX_PLATFORM false false

/-- The two static arrays with `in_buff` at 0x20000000 and `out_buff` right
after it. -/
def bufs0 : StaticBuffers :=
  { in_buff := 0x20000000, out_buff := 0x20000BB8,
    in_buff_fits := by decide, out_buff_fits := by decide,
    distinct_objects := by decide }

/-- An ADuCM profile with the arrays placed as in `bufs0`. -/
def aducm : Platform := .ADUCM_PLATFORM bufs0

/-- Collaborators that all succeed; the initialising calls hand out the
descriptors 0x10, 0x20, 0x30, 0x40 and the run loop returns `ret`. -/
def envOk (ret : Int) : Env :=
  { adi_pwr_Init := 0
    adi_pwr_SetClockDivider := fun _ _ => 0
    adi_initComponents := 0
    irq_ctrl_init := fun _ => (0, 0x10)
    uart_init := fun _ => (0, 0x20)
    irq_global_enable := fun _ => 0
    iio_app_init := fun _ => (0, 0x30)
    iio_demo_init := fun _ => (0, 0x40)
    iio_app := fun _ => ret
    uart_write := fun _ _ len => len
    uart_read := fun _ buf len => (len, buf.map fun _ => 7) }

/-- All collaborators succeed except `irq_global_enable`, which returns `-2`. -/
def envEnableFails : Env := { envOk 0 with irq_global_enable := fun _ => -2 }

/-- All collaborators succeed except `uart_init`, which returns `-2`. -/
def envUartFails : Env := { envOk 0 with uart_init := fun _ => (-2, 0) }

/-- All collaborators succeed except the vendor component initialisation. -/
def envComponentsFail : Env := { envOk 0 with adi_initComponents := -1 }

/-- All collaborators succeed except the power initialisation. -/
def envPowerFails : Env := { envOk 0 with adi_pwr_Init := 1 }

/-! ## Classifying the calls of a trace -/

/-- The calls `platform_init` makes to the power service. -/
def Call.isPower : Call → Bool
  | .adi_pwr_Init => true
  | .adi_pwr_SetClockDivider _ _ => true
  | .adi_initComponents => true
  | _ => false

def Call.isPlatformInit : Call → Bool
  | .platform_init => true
  | _ => false

def Call.isIrqCtrlInit : Call → Bool
  | .irq_ctrl_init _ => true
  | _ => false

def Call.isUartInit : Call → Bool
  | .uart_init _ => true
  | _ => false

def Call.isIrqGlobalEnable : Call → Bool
  | .irq_global_enable _ => true
  | _ => false

def Call.isAppInit : Call → Bool
  | .iio_app_init _ => true
  | _ => false

/-- A call of `iio_demo_init` for the device of the given name. -/
def Call.isDemoInit (name : String) : Call → Bool
  | .iio_demo_init p => p.name == name
  | _ => false

def Call.isApp : Call → Bool
  | .iio_app _ => true
  | _ => false

/-- Every event of the trace `t` that satisfies `Q` comes after an event of `t`
that satisfies `P`. -/
def PrecededBy (P Q : Event → Prop) (t : List Event) : Prop :=
  ∀ pre e post, t = pre ++ e :: post → Q e → ∃ e' ∈ pre, P e'

/-- The `irq_desc` fields of the Xilinx extra payloads received by the
`uart_init` calls of a trace. -/
def uartIrqDescs : List Event → List Nat
  | [] => []
  | e :: t =>
    match e.call with
    | .uart_init p =>
      match p.extra with
      | .xil x => x.irq_desc :: uartIrqDescs t
      | .aducm _ => uartIrqDescs t
    | _ => uartIrqDescs t

/-- The descriptors written by the successful `irq_ctrl_init` calls of a trace. -/
def irqCtrlDescs : List Event → List Nat
  | [] => []
  | e :: t =>
    match e.call, e.desc with
    | .irq_ctrl_init _, some d => if 0 ≤ e.status then d :: irqCtrlDescs t else irqCtrlDescs t
    | _, _ => irqCtrlDescs t

/-! ## The events of a run, named

The values `main` passes to its collaborators and the events these calls leave
in the trace, used to state what a run looks like (`main_cases` proves that
the trace of `main` consists of exactly these events). -/

/-- The value of `irq_init_param` at the call of `irq_ctrl_init`. -/
def irqPar (P : Params) (pf : Platform) : irq_init_param :=
  { irq_ctrl_id := P.INTC_DEVICE_ID, extra := platform_irq_init_par pf }

/-- The value of `uart_init_par` at the call of `uart_init`. -/
def uartPar (P : Params) (pf : Platform) (irq_desc0 : Nat) : uart_init_param :=
  { device_id := P.UART_DEVICE_ID, baud_rate := P.UART_BAUDRATE,
    extra := platform_uart_init_par P irq_desc0 pf }

/-- The value of `iio_app_init_par` at the call of `iio_app_init`. -/
def appPar : iio_app_init_param :=
  { iio_server_ops := { read := .iio_uart_read, write := .iio_uart_write } }

/-- The value of `iio_demo_out_init_par` at the first call of `iio_demo_init`. -/
def outPar (P : Params) (pf : Platform) : iio_demo_init_param :=
  { name := "demo_device_output", num_channels := 4,
    ddr_base_addr := OUTPUT_BASE_ADDRESS P pf }

/-- The value of `iio_demo_in_init_par` at the second call of `iio_demo_init`. -/
def inPar (P : Params) (pf : Platform) : iio_demo_init_param :=
  { name := "demo_device_input", num_channels := 4,
    ddr_base_addr := INPUT_BASE_ADDRESS P pf }

def evPlatform (P : Params) (pf : Platform) (env : Env) : Event :=
  ⟨Call.platform_init, (platform_init P pf env).1, none⟩

def evIrq (P : Params) (pf : Platform) (env : Env) : Event :=
  ⟨Call.irq_ctrl_init (irqPar P pf), (env.irq_ctrl_init (irqPar P pf)).1,
    some (env.irq_ctrl_init (irqPar P pf)).2⟩

def evUart (P : Params) (pf : Platform) (env : Env) (irq_desc0 : Nat) : Event :=
  ⟨Call.uart_init (uartPar P pf irq_desc0), (env.uart_init (uartPar P pf irq_desc0)).1,
    some (env.uart_init (uartPar P pf irq_desc0)).2⟩

def evEnable (P : Params) (pf : Platform) (env : Env) : Event :=
  ⟨Call.irq_global_enable (env.irq_ctrl_init (irqPar P pf)).2,
    env.irq_global_enable (env.irq_ctrl_init (irqPar P pf)).2, none⟩

def evAppInit (env : Env) : Event :=
  ⟨Call.iio_app_init appPar, (env.iio_app_init appPar).1, some (env.iio_app_init appPar).2⟩

def evOut (P : Params) (pf : Platform) (env : Env) : Event :=
  ⟨Call.iio_demo_init (outPar P pf), (env.iio_demo_init (outPar P pf)).1,
    some (env.iio_demo_init (outPar P pf)).2⟩

def evIn (P : Params) (pf : Platform) (env : Env) : Event :=
  ⟨Call.iio_demo_init (inPar P pf), (env.iio_demo_init (inPar P pf)).1,
    some (env.iio_demo_init (inPar P pf)).2⟩

def evApp (env : Env) : Event :=
  ⟨Call.iio_app (env.iio_app_init appPar).2, env.iio_app (env.iio_app_init appPar).2, none⟩

/-- The configurations passed to the `iio_demo_init` calls of a trace, in order. -/
def demoInitParams : List Event → List iio_demo_init_param
  | [] => []
  | e :: t =>
    match e.call with
    | .iio_demo_init p => p :: demoInitParams t
    | _ => demoInitParams t

/-! ## Theorems -/

theorem platform_init_trace_isPower (P : Params) (pf : Platform) (env : Env) :
    ∀ e ∈ (platform_init P pf env).2, e.call.isPower = true := by
  intro e he
  cases pf with
  | XILINX_PLATFORM a b => simp [platform_init] at he
  | ADUCM_PLATFORM bufs =>
    unfold platform_init at he
    simp only [] at he
    split_ifs at he <;> simp at he <;> (try casesm* _ ∨ _) <;> (subst_vars; rfl)

theorem platform_init_status (P : Params) (pf : Platform) (env : Env) :
    (platform_init P pf env).1 = SUCCESS ∨ (platform_init P pf env).1 = FAILURE := by
  cases pf with
  | XILINX_PLATFORM a b => simp [platform_init]
  | ADUCM_PLATFORM bufs =>
    unfold platform_init
    simp only []
    split_ifs <;> simp

theorem isPower_codeStage {c : Call} (h : c.isPower = true) : codeStage c = 1 := by
  cases c <;> simp_all [Call.isPower, codeStage]

theorem isPower_not_isStage {c : Call} (h : c.isPower = true) : c.isStage = false := by
  cases c <;> simp_all [Call.isPower, Call.isStage]

theorem one_le_codeStage (c : Call) : 1 ≤ codeStage c := by
  cases c <;> simp [codeStage]
  split_ifs <;> omega

/-- Along every run the calls are made in the order of `codeStage`. -/
theorem main_trace_codeStage_sorted (P : Params) (pf : Platform) (env : Env) (irq_desc0 : Nat)
    (g : Globals) :
    (main P pf env irq_desc0 g).trace.Pairwise
      (fun a b => codeStage a.call ≤ codeStage b.call) := by
  have hp := platform_init_trace_isPower P pf env
  have hpre : ∀ a ∈ (platform_init P pf env).2, codeStage a.call = 1 :=
    fun a ha => isPower_codeStage (hp a ha)
  have hsorted : (platform_init P pf env).2.Pairwise
      (fun a b => codeStage a.call ≤ codeStage b.call) :=
    List.pairwise_of_forall_mem_list fun a ha b hb => by rw [hpre a ha, hpre b hb]
  have hcross : ∀ l : List Event, ∀ a ∈ (platform_init P pf env).2, ∀ b ∈ l,
      codeStage a.call ≤ codeStage b.call := by
    intro l a ha b _
    rw [hpre a ha]
    exact one_le_codeStage _
  unfold main
  simp only []
  split_ifs <;>
    simp only [List.append_assoc, List.singleton_append, List.pairwise_append] <;>
    exact ⟨hsorted, by simp [codeStage], hcross _⟩

/-- A bring-up stage that returns a negative status is the last call of the run. -/
theorem main_failed_stage_last (P : Params) (pf : Platform) (env : Env) (irq_desc0 : Nat)
    (g : Globals) (e : Event) (he : e ∈ (main P pf env irq_desc0 g).trace)
    (hs : e.call.isStage = true) (hf : e.status < 0) :
    (main P pf env irq_desc0 g).trace.getLast? = some e := by
  have hp := platform_init_trace_isPower P pf env
  have hpre : ∀ a ∈ (platform_init P pf env).2, a ≠ e := by
    intro a ha hae
    have := isPower_not_isStage (hp a ha)
    rw [hae, hs] at this
    exact Bool.noConfusion this
  unfold main at he ⊢
  simp only [] at he ⊢
  split_ifs at he ⊢ <;>
    simp only [List.append_assoc, List.singleton_append, List.mem_append, List.mem_cons,
      List.mem_singleton, List.not_mem_nil, or_false] at he <;>
    simp only [List.getLast?_concat, Option.some.injEq] <;>
    casesm* _ ∨ _ <;>
    first
      | exact absurd rfl (hpre e ‹_›)
      | exact (‹e = _›).symm
      | (subst_vars; simp only [IS_ERR_VALUE, decide_eq_true_eq] at *; contradiction)

theorem isStage_codeStage_le {c : Call} (h : c.isStage = true) : codeStage c ≤ 7 := by
  cases c <;> simp_all [Call.isStage, codeStage]
  split_ifs <;> omega

theorem pairwise_getLast_rel {α : Type} {R : α → α → Prop} (hrefl : ∀ a, R a a) :
    ∀ (l : List α) (e : α), l.Pairwise R → l.getLast? = some e → ∀ a ∈ l, R a e := by
  intro l e hp hl a ha
  obtain ⟨init, rfl⟩ : ∃ init, l = init ++ [e] := by
    rcases List.eq_nil_or_concat l with rfl | ⟨init, b, rfl⟩
    · simp at hl
    · rw [List.concat_eq_append, List.getLast?_concat] at hl
      cases hl
      exact ⟨init, List.concat_eq_append _ _⟩
  rw [List.pairwise_append] at hp
  rcases List.mem_append.1 ha with h | h
  · exact hp.2.2 a h e (List.mem_singleton.2 rfl)
  · rw [List.mem_singleton.1 h]
    exact hrefl e

/-- C1, as the specification orders the stages (interrupt enable before
transport bring-up), fails: when `irq_global_enable` returns `-2` the later
stage `uart_init` has already been invoked. -/
theorem spec_order_fail_fast_refuted :
    ¬ (∀ e ∈ (main P0 xilinx envEnableFails 0 ⟨0⟩).trace,
        e.call.isStage = true → e.status < 0 →
        ∀ e' ∈ (main P0 xilinx envEnableFails 0 ⟨0⟩).trace,
          specStage e'.call ≤ specStage e.call) := by
  decide

/-- C1 (amended): with the stages taken in the order in which `main` calls them
(`platform_init`, `irq_ctrl_init`, `uart_init`, `irq_global_enable`,
`iio_app_init`, `iio_demo_init` output, `iio_demo_init` input, `iio_app`), a
stage that returns a negative status is followed by no call of a later stage,
and `iio_app` is not invoked. -/
theorem main_fail_fast_code_order (P : Params) (pf : Platform) (env : Env) (irq_desc0 : Nat)
    (g : Globals) (e : Event) (he : e ∈ (main P pf env irq_desc0 g).trace)
    (hs : e.call.isStage = true) (hf : e.status < 0) :
    (∀ e' ∈ (main P pf env irq_desc0 g).trace, codeStage e'.call ≤ codeStage e.call) ∧
    (∀ e' ∈ (main P pf env irq_desc0 g).trace, ∀ d, e'.call ≠ Call.iio_app d) := by
  have hlast := main_failed_stage_last P pf env irq_desc0 g e he hs hf
  have hsorted := main_trace_codeStage_sorted P pf env irq_desc0 g
  have hle : ∀ a ∈ (main P pf env irq_desc0 g).trace, codeStage a.call ≤ codeStage e.call :=
    pairwise_getLast_rel (R := fun a b : Event => codeStage a.call ≤ codeStage b.call)
      (fun _ => Nat.le_refl _) _ e hsorted hlast
  refine ⟨hle, ?_⟩
  intro e' he' d hd
  have h1 := hle e' he'
  have h2 := isStage_codeStage_le hs
  have h3 : codeStage (Call.iio_app d) = 8 := rfl
  rw [hd, h3] at h1
  omega

theorem main_fail_fast_code_order_witness :
    (⟨Call.irq_global_enable 0x10, -2, none⟩ : Event) ∈
        (main P0 xilinx envEnableFails 0 ⟨0⟩).trace ∧
      ((∀ e' ∈ (main P0 xilinx envEnableFails 0 ⟨0⟩).trace,
          codeStage e'.call ≤ codeStage (Call.irq_global_enable 0x10)) ∧
       (∀ e' ∈ (main P0 xilinx envEnableFails 0 ⟨0⟩).trace, ∀ d, e'.call ≠ Call.iio_app d)) :=
  ⟨by decide,
   main_fail_fast_code_order P0 xilinx envEnableFails 0 ⟨0⟩ ⟨Call.irq_global_enable 0x10, -2, none⟩
     (by decide) (by decide) (by decide)⟩
theorem precededBy_of_forall_not {P Q : Event → Prop} {t : List Event}
    (h : ∀ e ∈ t, ¬ Q e) : PrecededBy P Q t := by
  intro pre e post ht hq
  exact absurd hq (h e (by rw [ht]; simp))

/-- A failed stage hands its status to the caller of `main`, except `uart_init`,
for which `main` returns `FAILURE`. -/
theorem main_status_of_failed_stage (P : Params) (pf : Platform) (env : Env) (irq_desc0 : Nat)
    (g : Globals) (e : Event) (he : e ∈ (main P pf env irq_desc0 g).trace)
    (hs : e.call.isStage = true) (hf : e.status < 0) :
    (main P pf env irq_desc0 g).status = if e.call.isUartInit then FAILURE else e.status := by
  have hlast := main_failed_stage_last P pf env irq_desc0 g e he hs hf
  clear he
  unfold main at hlast ⊢
  simp only [] at hlast ⊢
  split_ifs at hlast ⊢ <;>
    simp only [List.getLast?_concat, Option.some.injEq] at hlast <;>
    subst hlast <;>
    first
      | rfl
      | (simp only [IS_ERR_VALUE, decide_eq_true_eq] at *; contradiction)

/-- C2 at the failing input: every collaborator succeeds except `uart_init`,
which is the first and only stage to fail and returns `-2`; `main` returns
`-1` (`FAILURE`), not `-2`. -/
theorem uart_init_failure_code_replaced :
    (∃ e ∈ (main P0 aducm envUartFails 0 ⟨0⟩).trace, e.call.isUartInit = true ∧ e.status = -2) ∧
    (∀ e ∈ (main P0 aducm envUartFails 0 ⟨0⟩).trace, e.status < 0 → e.call.isUartInit = true) ∧
    (main P0 aducm envUartFails 0 ⟨0⟩).status = -1 ∧
    (main P0 aducm envUartFails 0 ⟨0⟩).status ≠ -2 := by
  decide
/-- The eight ways a run of `main` can go: one per stage that fails, and the
run in which no stage fails. -/
theorem main_cases (P : Params) (pf : Platform) (env : Env) (irq_desc0 : Nat) (g : Globals) :
    ((evPlatform P pf env).status < 0 ∧
      main P pf env irq_desc0 g =
        ⟨(evPlatform P pf env).status, (platform_init P pf env).2 ++ [evPlatform P pf env], g⟩) ∨
    (0 ≤ (evPlatform P pf env).status ∧ (evIrq P pf env).status < 0 ∧
      main P pf env irq_desc0 g =
        ⟨(evIrq P pf env).status,
          (platform_init P pf env).2 ++ [evPlatform P pf env, evIrq P pf env], g⟩) ∨
    (0 ≤ (evPlatform P pf env).status ∧ 0 ≤ (evIrq P pf env).status ∧
      (evUart P pf env irq_desc0).status < 0 ∧
      main P pf env irq_desc0 g =
        ⟨FAILURE,
          (platform_init P pf env).2 ++
            [evPlatform P pf env, evIrq P pf env, evUart P pf env irq_desc0],
          ⟨(env.uart_init (uartPar P pf irq_desc0)).2⟩⟩) ∨
    (0 ≤ (evPlatform P pf env).status ∧ 0 ≤ (evIrq P pf env).status ∧
      0 ≤ (evUart P pf env irq_desc0).status ∧ (evEnable P pf env).status < 0 ∧
      main P pf env irq_desc0 g =
        ⟨(evEnable P pf env).status,
          (platform_init P pf env).2 ++
            [evPlatform P pf env, evIrq P pf env, evUart P pf env irq_desc0, evEnable P pf env],
          ⟨(env.uart_init (uartPar P pf irq_desc0)).2⟩⟩) ∨
    (0 ≤ (evPlatform P pf env).status ∧ 0 ≤ (evIrq P pf env).status ∧
      0 ≤ (evUart P pf env irq_desc0).status ∧ 0 ≤ (evEnable P pf env).status ∧
      (evAppInit env).status < 0 ∧
      main P pf env irq_desc0 g =
        ⟨(evAppInit env).status,
          (platform_init P pf env).2 ++
            [evPlatform P pf env, evIrq P pf env, evUart P pf env irq_desc0, evEnable P pf env,
              evAppInit env],
          ⟨(env.uart_init (uartPar P pf irq_desc0)).2⟩⟩) ∨
    (0 ≤ (evPlatform P pf env).status ∧ 0 ≤ (evIrq P pf env).status ∧
      0 ≤ (evUart P pf env irq_desc0).status ∧ 0 ≤ (evEnable P pf env).status ∧
      0 ≤ (evAppInit env).status ∧ (evOut P pf env).status < 0 ∧
      main P pf env irq_desc0 g =
        ⟨(evOut P pf env).status,
          (platform_init P pf env).2 ++
            [evPlatform P pf env, evIrq P pf env, evUart P pf env irq_desc0, evEnable P pf env,
              evAppInit env, evOut P pf env],
          ⟨(env.uart_init (uartPar P pf irq_desc0)).2⟩⟩) ∨
    (0 ≤ (evPlatform P pf env).status ∧ 0 ≤ (evIrq P pf env).status ∧
      0 ≤ (evUart P pf env irq_desc0).status ∧ 0 ≤ (evEnable P pf env).status ∧
      0 ≤ (evAppInit env).status ∧ 0 ≤ (evOut P pf env).status ∧ (evIn P pf env).status < 0 ∧
      main P pf env irq_desc0 g =
        ⟨(evIn P pf env).status,
          (platform_init P pf env).2 ++
            [evPlatform P pf env, evIrq P pf env, evUart P pf env irq_desc0, evEnable P pf env,
              evAppInit env, evOut P pf env, evIn P pf env],
          ⟨(env.uart_init (uartPar P pf irq_desc0)).2⟩⟩) ∨
    (0 ≤ (evPlatform P pf env).status ∧ 0 ≤ (evIrq P pf env).status ∧
      0 ≤ (evUart P pf env irq_desc0).status ∧ 0 ≤ (evEnable P pf env).status ∧
      0 ≤ (evAppInit env).status ∧ 0 ≤ (evOut P pf env).status ∧ 0 ≤ (evIn P pf env).status ∧
      main P pf env irq_desc0 g =
        ⟨(evApp env).status,
          (platform_init P pf env).2 ++
            [evPlatform P pf env, evIrq P pf env, evUart P pf env irq_desc0, evEnable P pf env,
              evAppInit env, evOut P pf env, evIn P pf env, evApp env],
          ⟨(env.uart_init (uartPar P pf irq_desc0)).2⟩⟩) := by
  unfold main
  simp only []
  split_ifs with h0 h1 h2 h3 h4 h5 h6 <;>
    simp only [IS_ERR_VALUE, decide_eq_true_eq, not_lt] at *
  · exact Or.inl ⟨h0, rfl⟩
  · exact Or.inr (Or.inl ⟨h0, h1, by
      simp [evPlatform, evIrq, irqPar]⟩)
  · exact Or.inr (Or.inr (Or.inl ⟨h0, h1, h2, by
      simp [evPlatform, evIrq, evUart, irqPar, uartPar]⟩))
  · exact Or.inr (Or.inr (Or.inr (Or.inl ⟨h0, h1, h2, h3, by
      simp [evPlatform, evIrq, evUart, evEnable, irqPar, uartPar]⟩)))
  · exact Or.inr (Or.inr (Or.inr (Or.inr (Or.inl ⟨h0, h1, h2, h3, h4, by
      simp [evPlatform, evIrq, evUart, evEnable, evAppInit, irqPar, uartPar, appPar]⟩))))
  · exact Or.inr (Or.inr (Or.inr (Or.inr (Or.inr (Or.inl ⟨h0, h1, h2, h3, h4, h5, by
      simp [evPlatform, evIrq, evUart, evEnable, evAppInit, evOut, irqPar, uartPar, appPar,
        outPar]⟩)))))
  · exact Or.inr (Or.inr (Or.inr (Or.inr (Or.inr (Or.inr (Or.inl ⟨h0, h1, h2, h3, h4, h5, h6, by
      simp [evPlatform, evIrq, evUart, evEnable, evAppInit, evOut, evIn, irqPar, uartPar,
        appPar, outPar, inPar]⟩))))))
  · exact Or.inr (Or.inr (Or.inr (Or.inr (Or.inr (Or.inr (Or.inr ⟨h0, h1, h2, h3, h4, h5, h6, by
      simp [evPlatform, evIrq, evUart, evEnable, evAppInit, evOut, evIn, evApp, irqPar,
        uartPar, appPar, outPar, inPar]⟩))))))
theorem evPlatform_call (P : Params) (pf : Platform) (env : Env) :
    (evPlatform P pf env).call = Call.platform_init := rfl

theorem evIrq_call (P : Params) (pf : Platform) (env : Env) :
    (evIrq P pf env).call = Call.irq_ctrl_init (irqPar P pf) := rfl

theorem evUart_call (P : Params) (pf : Platform) (env : Env) (irq_desc0 : Nat) :
    (evUart P pf env irq_desc0).call = Call.uart_init (uartPar P pf irq_desc0) := rfl

theorem evEnable_call (P : Params) (pf : Platform) (env : Env) :
    (evEnable P pf env).call = Call.irq_global_enable (env.irq_ctrl_init (irqPar P pf)).2 := rfl

theorem evAppInit_call (env : Env) : (evAppInit env).call = Call.iio_app_init appPar := rfl

theorem evOut_call (P : Params) (pf : Platform) (env : Env) :
    (evOut P pf env).call = Call.iio_demo_init (outPar P pf) := rfl

theorem evIn_call (P : Params) (pf : Platform) (env : Env) :
    (evIn P pf env).call = Call.iio_demo_init (inPar P pf) := rfl

theorem evApp_call (env : Env) :
    (evApp env).call = Call.iio_app (env.iio_app_init appPar).2 := rfl

theorem precededBy_nil {P Q : Event → Prop} : PrecededBy P Q [] := by
  intro pre e post h
  simp at h

theorem precededBy_cons_of_not {P Q : Event → Prop} {x : Event} {l : List Event}
    (hq : ¬ Q x) (h : PrecededBy P Q l) : PrecededBy P Q (x :: l) := by
  intro pre e post heq he
  cases pre with
  | nil =>
    simp only [List.nil_append, List.cons.injEq] at heq
    exact absurd (heq.1 ▸ he) hq
  | cons y pre' =>
    simp only [List.cons_append, List.cons.injEq] at heq
    obtain ⟨e', he', hp⟩ := h pre' e post heq.2 he
    exact ⟨e', List.mem_cons_of_mem _ he', hp⟩

theorem precededBy_cons_of_pos {P Q : Event → Prop} {x : Event} {l : List Event}
    (hq : ¬ Q x) (hp : P x) : PrecededBy P Q (x :: l) := by
  intro pre e post heq he
  cases pre with
  | nil =>
    simp only [List.nil_append, List.cons.injEq] at heq
    exact absurd (heq.1 ▸ he) hq
  | cons y pre' =>
    simp only [List.cons_append, List.cons.injEq] at heq
    exact ⟨x, by rw [heq.1]; exact List.mem_cons_self _ _, hp⟩

theorem precededBy_append_of_forall_not {P Q : Event → Prop} {l₁ l₂ : List Event}
    (h₁ : ∀ e ∈ l₁, ¬ Q e) (h₂ : PrecededBy P Q l₂) : PrecededBy P Q (l₁ ++ l₂) := by
  intro pre e post heq he
  rcases List.append_eq_append_iff.1 heq with ⟨a, rfl, ha⟩ | ⟨c, rfl, hc⟩
  · obtain ⟨e', he', hp⟩ := h₂ a e post ha he
    exact ⟨e', List.mem_append_right _ he', hp⟩
  · cases c with
    | nil =>
      simp only [List.nil_append] at hc
      obtain ⟨e', he', -⟩ := h₂ [] e post hc.symm he
      simp at he'
    | cons y c' =>
      simp only [List.cons_append, List.cons.injEq] at hc
      exact absurd he (h₁ e (by rw [hc.1]; simp))
/-- C3 as stated fails: with `irq_ctrl_init` succeeding and `irq_global_enable`
returning `-2`, `main` does return `-2`, but `uart_init` has been invoked, and
it was invoked before any `irq_global_enable` call. -/
theorem irq_enable_before_uart_refuted :
    ((∃ e ∈ (main P0 xilinx envEnableFails 0 ⟨0⟩).trace,
        e.call.isIrqCtrlInit = true ∧ 0 ≤ e.status) ∧
     (∃ e ∈ (main P0 xilinx envEnableFails 0 ⟨0⟩).trace,
        e.call.isIrqGlobalEnable = true ∧ e.status = -2)) ∧
    ¬ ((main P0 xilinx envEnableFails 0 ⟨0⟩).status = -2 ∧
        ∀ e ∈ (main P0 xilinx envEnableFails 0 ⟨0⟩).trace, e.call.isUartInit = false) ∧
    ¬ PrecededBy (fun e => e.call.isIrqGlobalEnable = true ∧ 0 ≤ e.status)
        (fun e => e.call.isUartInit = true) (main P0 xilinx envEnableFails 0 ⟨0⟩).trace := by
  refine ⟨by decide, by decide, ?_⟩
  intro h
  obtain ⟨e', he', hc, -⟩ := h
    [⟨Call.platform_init, 0, none⟩,
     ⟨Call.irq_ctrl_init ⟨0, .xil ⟨.IRQ_PS⟩⟩, 0, some 0x10⟩]
    ⟨Call.uart_init ⟨0, 115200, .xil ⟨.UART_PS, 53, 0⟩⟩, 0, some 0x20⟩
    [⟨Call.irq_global_enable 0x10, -2, none⟩] (by decide) rfl
  revert hc
  simp only [List.mem_cons, List.mem_singleton, List.not_mem_nil, or_false] at he'
  rcases he' with rfl | rfl <;> decide

theorem isPower_classifiers {c : Call} (h : c.isPower = true) :
    c.isPlatformInit = false ∧ c.isIrqCtrlInit = false ∧ c.isUartInit = false ∧
    c.isIrqGlobalEnable = false ∧ c.isAppInit = false ∧ c.isApp = false ∧
    ∀ name, c.isDemoInit name = false := by
  cases c <;> simp_all [Call.isPower, Call.isPlatformInit, Call.isIrqCtrlInit, Call.isUartInit,
    Call.isIrqGlobalEnable, Call.isAppInit, Call.isApp, Call.isDemoInit]

/-- C3 (amended): `uart_init` is invoked only after `irq_ctrl_init` has
returned success, and `irq_global_enable` is invoked only after `uart_init` has
returned success; when `irq_global_enable` fails with `-2`, `main` returns `-2`,
`uart_init` has been invoked exactly once and `iio_app_init` is never invoked. -/
theorem main_uart_init_then_irq_global_enable (P : Params) (pf : Platform) (env : Env)
    (irq_desc0 : Nat) (g : Globals) :
    PrecededBy (fun e => e.call.isIrqCtrlInit = true ∧ 0 ≤ e.status)
        (fun e => e.call.isUartInit = true) (main P pf env irq_desc0 g).trace ∧
    PrecededBy (fun e => e.call.isUartInit = true ∧ 0 ≤ e.status)
        (fun e => e.call.isIrqGlobalEnable = true) (main P pf env irq_desc0 g).trace ∧
    (∀ e ∈ (main P pf env irq_desc0 g).trace, e.call.isIrqGlobalEnable = true → e.status = -2 →
      (main P pf env irq_desc0 g).status = -2 ∧
      (main P pf env irq_desc0 g).trace.countP (fun e => e.call.isUartInit) = 1 ∧
      ∀ e' ∈ (main P pf env irq_desc0 g).trace, e'.call.isAppInit = false) := by
  have hp := platform_init_trace_isPower P pf env
  have hq1 : ∀ e ∈ (platform_init P pf env).2, ¬ e.call.isUartInit = true := fun e he => by
    simp [(isPower_classifiers (hp e he)).2.2.1]
  have hq2 : ∀ e ∈ (platform_init P pf env).2, ¬ e.call.isIrqGlobalEnable = true :=
    fun e he => by simp [(isPower_classifiers (hp e he)).2.2.2.1]
  have hcount : (platform_init P pf env).2.countP (fun e => e.call.isUartInit) = 0 :=
    List.countP_eq_zero.2 fun a ha => hq1 a ha
  have happ : ∀ a ∈ (platform_init P pf env).2, a.call.isAppInit = false :=
    fun a ha => (isPower_classifiers (hp a ha)).2.2.2.2.1
  refine ⟨?_, ?_, ?_⟩
  · rcases main_cases P pf env irq_desc0 g with h | h | h | h | h | h | h | h <;>
      simp only [h] <;>
      refine precededBy_append_of_forall_not hq1 ?_ <;>
      repeat' (first
        | exact precededBy_nil
        | exact precededBy_cons_of_pos (by simp [evPlatform_call, evIrq_call, Call.isUartInit])
            ⟨rfl, by simp only [h]⟩
        | refine precededBy_cons_of_not
            (by simp [evPlatform_call, evIrq_call, Call.isUartInit]) ?_)
  · rcases main_cases P pf env irq_desc0 g with h | h | h | h | h | h | h | h <;>
      simp only [h] <;>
      refine precededBy_append_of_forall_not hq2 ?_ <;>
      repeat' (first
        | exact precededBy_nil
        | exact precededBy_cons_of_pos
            (by simp [evPlatform_call, evIrq_call, evUart_call, Call.isIrqGlobalEnable])
            ⟨rfl, by simp only [h]⟩
        | refine precededBy_cons_of_not
            (by simp [evPlatform_call, evIrq_call, evUart_call, Call.isIrqGlobalEnable]) ?_)
  · intro e he hc hst
    rcases main_cases P pf env irq_desc0 g with h | h | h | h | h | h | h | h <;>
      simp only [h, List.mem_append, List.mem_cons, List.mem_singleton, List.not_mem_nil,
        or_false] at he ⊢
    all_goals
      casesm* _ ∨ _ <;>
      first
        | exact absurd hc (hq2 e ‹_›)
        | (subst e
           first
             | (simp [evPlatform_call, evIrq_call, evUart_call, evAppInit_call, evOut_call,
                  evIn_call, evApp_call, Call.isIrqGlobalEnable] at hc; done)
             | (exfalso; omega)
             | (refine ⟨hst, ?_, ?_⟩
                · rw [List.countP_append, hcount]
                  simp [List.countP_cons, evPlatform_call, evIrq_call, evUart_call,
                    evEnable_call, Call.isUartInit]
                · intro e' he'
                  rcases he' with he' | he' | he' | he' | he'
                  · exact happ e' he'
                  all_goals (subst he'; rfl)))

theorem main_uart_init_then_irq_global_enable_witness :
    (main P0 xilinx envEnableFails 0 ⟨0⟩).status = -2 ∧
    (main P0 xilinx envEnableFails 0 ⟨0⟩).trace.countP (fun e => e.call.isUartInit) = 1 ∧
    ∀ e' ∈ (main P0 xilinx envEnableFails 0 ⟨0⟩).trace, e'.call.isAppInit = false :=
  (main_uart_init_then_irq_global_enable P0 xilinx envEnableFails 0 ⟨0⟩).2.2
    ⟨Call.irq_global_enable 0x10, -2, none⟩ (by decide) (by decide) (by decide)
/-- On the Xilinx profile every `uart_init` call receives, in the `irq_desc`
field of its extra payload, the content the local variable `irq_desc` had
before `irq_ctrl_init` was called. -/
theorem main_uart_init_irq_desc (P : Params) (a b : Bool) (env : Env) (irq_desc0 : Nat)
    (g : Globals) :
    ∀ e ∈ (main P (.XILINX_PLATFORM a b) env irq_desc0 g).trace, ∀ p, e.call = Call.uart_init p →
      ∃ x, p.extra = .xil x ∧ x.irq_desc = irq_desc0 := by
  have hp := platform_init_trace_isPower P (.XILINX_PLATFORM a b) env
  intro e he p hc
  rcases main_cases P (.XILINX_PLATFORM a b) env irq_desc0 g with h | h | h | h | h | h | h | h <;>
    simp only [h, List.mem_append, List.mem_cons, List.mem_singleton, List.not_mem_nil,
      or_false] at he <;>
    casesm* _ ∨ _ <;>
    first
      | (have hpow := hp e ‹_›; rw [hc] at hpow; simp [Call.isPower] at hpow)
      | (subst e
         first
           | (rw [evUart_call] at hc
              cases hc
              exact ⟨_, rfl, rfl⟩)
           | simp [evPlatform_call, evIrq_call, evEnable_call, evAppInit_call,
               evOut_call, evIn_call, evApp_call] at hc)

/-- C4 at the failing input (Xilinx profile, `irq_ctrl_init` succeeds and
writes the descriptor `0x10`, the local `irq_desc` held `0xDEAD` before): the
only successful `irq_ctrl_init` call wrote `0x10`, yet the extra payload that
`uart_init` receives carries `irq_desc = 0xDEAD`. -/
theorem uart_init_receives_stale_irq_desc :
    irqCtrlDescs (main P0 xilinx (envOk 0) 0xDEAD ⟨0⟩).trace = [0x10] ∧
    uartIrqDescs (main P0 xilinx (envOk 0) 0xDEAD ⟨0⟩).trace = [0xDEAD] := by
  decide

/-- C5: when `platform_init` and every later bring-up stage return success on
the arguments `main` passes them, the run consists of the stage calls in order
followed by exactly one `iio_app` call; the argument of that call is the
descriptor `iio_app_init` stored, the call is the last of the run (no bring-up
collaborator is invoked after it), and `main` returns what `iio_app` returns. -/
theorem main_run_handoff (P : Params) (pf : Platform) (env : Env) (irq_desc0 : Nat)
    (g : Globals)
    (h0 : 0 ≤ (platform_init P pf env).1)
    (h1 : 0 ≤ (env.irq_ctrl_init (irqPar P pf)).1)
    (h2 : 0 ≤ (env.uart_init (uartPar P pf irq_desc0)).1)
    (h3 : 0 ≤ env.irq_global_enable (env.irq_ctrl_init (irqPar P pf)).2)
    (h4 : 0 ≤ (env.iio_app_init appPar).1)
    (h5 : 0 ≤ (env.iio_demo_init (outPar P pf)).1)
    (h6 : 0 ≤ (env.iio_demo_init (inPar P pf)).1) :
    (main P pf env irq_desc0 g).trace =
      (platform_init P pf env).2 ++
        [evPlatform P pf env, evIrq P pf env, evUart P pf env irq_desc0, evEnable P pf env,
          ⟨Call.iio_app_init appPar, (env.iio_app_init appPar).1,
            some (env.iio_app_init appPar).2⟩,
          evOut P pf env, evIn P pf env,
          ⟨Call.iio_app (env.iio_app_init appPar).2,
            env.iio_app (env.iio_app_init appPar).2, none⟩] ∧
    (main P pf env irq_desc0 g).trace.countP (fun e => e.call.isAppInit) = 1 ∧
    (main P pf env irq_desc0 g).trace.countP (fun e => e.call.isApp) = 1 ∧
    (main P pf env irq_desc0 g).trace.getLast? =
      some ⟨Call.iio_app (env.iio_app_init appPar).2,
        env.iio_app (env.iio_app_init appPar).2, none⟩ ∧
    (main P pf env irq_desc0 g).status = env.iio_app (env.iio_app_init appPar).2 := by
  have hp := platform_init_trace_isPower P pf env
  have hc1 : (platform_init P pf env).2.countP (fun e => e.call.isAppInit) = 0 :=
    List.countP_eq_zero.2 fun a ha => by simp [(isPower_classifiers (hp a ha)).2.2.2.2.1]
  have hc2 : (platform_init P pf env).2.countP (fun e => e.call.isApp) = 0 :=
    List.countP_eq_zero.2 fun a ha => by simp [(isPower_classifiers (hp a ha)).2.2.2.2.2.1]
  have k0 : 0 ≤ (evPlatform P pf env).status := h0
  have k1 : 0 ≤ (evIrq P pf env).status := h1
  have k2 : 0 ≤ (evUart P pf env irq_desc0).status := h2
  have k3 : 0 ≤ (evEnable P pf env).status := h3
  have k4 : 0 ≤ (evAppInit env).status := h4
  have k5 : 0 ≤ (evOut P pf env).status := h5
  have k6 : 0 ≤ (evIn P pf env).status := h6
  rcases main_cases P pf env irq_desc0 g with h | h | h | h | h | h | h | h
  all_goals first
    | (exfalso; omega)
    | skip
  refine ⟨?_, ?_, ?_, ?_, ?_⟩
  · simp only [h]
    rfl
  · simp only [h]
    rw [List.countP_append, hc1]
    simp [List.countP_cons, evPlatform_call, evIrq_call, evUart_call, evEnable_call,
      evAppInit_call, evOut_call, evIn_call, evApp_call, Call.isAppInit]
  · simp only [h]
    rw [List.countP_append, hc2]
    simp [List.countP_cons, evPlatform_call, evIrq_call, evUart_call, evEnable_call,
      evAppInit_call, evOut_call, evIn_call, evApp_call, Call.isApp]
  · simp only [h]
    simp [List.getLast?_append, evApp]
  · simp only [h]
    rfl

theorem main_run_handoff_witness :
    (main P0 aducm (envOk 5) 0 ⟨0⟩).trace =
      (platform_init P0 aducm (envOk 5)).2 ++
        [evPlatform P0 aducm (envOk 5), evIrq P0 aducm (envOk 5),
          evUart P0 aducm (envOk 5) 0, evEnable P0 aducm (envOk 5),
          ⟨Call.iio_app_init appPar, ((envOk 5).iio_app_init appPar).1,
            some ((envOk 5).iio_app_init appPar).2⟩,
          evOut P0 aducm (envOk 5), evIn P0 aducm (envOk 5),
          ⟨Call.iio_app ((envOk 5).iio_app_init appPar).2,
            (envOk 5).iio_app ((envOk 5).iio_app_init appPar).2, none⟩] ∧
    (main P0 aducm (envOk 5) 0 ⟨0⟩).trace.countP (fun e => e.call.isAppInit) = 1 ∧
    (main P0 aducm (envOk 5) 0 ⟨0⟩).trace.countP (fun e => e.call.isApp) = 1 ∧
    (main P0 aducm (envOk 5) 0 ⟨0⟩).trace.getLast? =
      some ⟨Call.iio_app ((envOk 5).iio_app_init appPar).2,
        (envOk 5).iio_app ((envOk 5).iio_app_init appPar).2, none⟩ ∧
    (main P0 aducm (envOk 5) 0 ⟨0⟩).status =
      (envOk 5).iio_app ((envOk 5).iio_app_init appPar).2 :=
  main_run_handoff P0 aducm (envOk 5) 0 ⟨0⟩ (by decide) (by decide) (by decide) (by decide)
    (by decide) (by decide) (by decide)

/-- C6: in every run of `main` the `iio_demo_init` call for the output device
comes after an `iio_app_init` call that returned success, the `iio_demo_init`
call for the input device comes after the output device's `iio_demo_init` call
and that call returned success (so output precedes input), and `iio_demo_init`
is called for no other device. -/
theorem main_device_construction_order (P : Params) (pf : Platform) (env : Env)
    (irq_desc0 : Nat) (g : Globals) :
    PrecededBy (fun e => e.call.isAppInit = true ∧ 0 ≤ e.status)
        (fun e => e.call.isDemoInit "demo_device_output" = true)
        (main P pf env irq_desc0 g).trace ∧
    PrecededBy (fun e => e.call.isDemoInit "demo_device_output" = true ∧ 0 ≤ e.status)
        (fun e => e.call.isDemoInit "demo_device_input" = true)
        (main P pf env irq_desc0 g).trace ∧
    (∀ e ∈ (main P pf env irq_desc0 g).trace, ∀ p, e.call = Call.iio_demo_init p →
      p.name = "demo_device_output" ∨ p.name = "demo_device_input") := by
  have hp := platform_init_trace_isPower P pf env
  have hq : ∀ name, ∀ e ∈ (platform_init P pf env).2, ¬ e.call.isDemoInit name = true :=
    fun name e he => by simp [(isPower_classifiers (hp e he)).2.2.2.2.2.2 name]
  refine ⟨?_, ?_, ?_⟩
  · rcases main_cases P pf env irq_desc0 g with h | h | h | h | h | h | h | h <;>
      simp only [h] <;>
      refine precededBy_append_of_forall_not (hq _) ?_ <;>
      repeat' (first
        | exact precededBy_nil
        | (refine precededBy_cons_of_pos ?_ ⟨rfl, ?_⟩
           · simp [evPlatform_call, evIrq_call, evUart_call, evEnable_call, evAppInit_call,
               Call.isDemoInit]
           · simp only [h])
        | (refine precededBy_cons_of_not ?_ ?_
           · simp [evPlatform_call, evIrq_call, evUart_call, evEnable_call, evAppInit_call,
               Call.isDemoInit]))
  · rcases main_cases P pf env irq_desc0 g with h | h | h | h | h | h | h | h <;>
      simp only [h] <;>
      refine precededBy_append_of_forall_not (hq _) ?_ <;>
      repeat' (first
        | exact precededBy_nil
        | (refine precededBy_cons_of_pos ?_ ⟨?_, ?_⟩
           · simp [evPlatform_call, evIrq_call, evUart_call, evEnable_call, evAppInit_call,
               evOut_call, outPar, Call.isDemoInit]
           · rw [evOut_call]
             simp [outPar, Call.isDemoInit]
           · simp only [h])
        | (refine precededBy_cons_of_not ?_ ?_
           · simp [evPlatform_call, evIrq_call, evUart_call, evEnable_call, evAppInit_call,
               evOut_call, outPar, Call.isDemoInit]))
  · intro e he p hc
    rcases main_cases P pf env irq_desc0 g with h | h | h | h | h | h | h | h <;>
      simp only [h, List.mem_append, List.mem_cons, List.mem_singleton, List.not_mem_nil,
        or_false] at he <;>
      casesm* _ ∨ _ <;>
      first
        | (have hpow := hp e ‹_›; rw [hc] at hpow; simp [Call.isPower] at hpow)
        | (subst e
           first
             | (rw [evOut_call] at hc
                cases hc
                exact Or.inl rfl)
             | (rw [evIn_call] at hc
                cases hc
                exact Or.inr rfl)
             | simp [evPlatform_call, evIrq_call, evUart_call, evEnable_call, evAppInit_call,
                 evApp_call] at hc)

/-- C7: `iio_uart_write` makes exactly one call, `uart_write` on the file's
`uart_desc` with the same bytes and the same length, and returns its result;
`iio_uart_read` does the same with `uart_read` and hands back the buffer as
`uart_read` left it.  These two adapters are the operations `main` registers
with `iio_app_init`, and the `uart_desc` they use after `main` is the descriptor
`uart_init` stored. -/
theorem iio_uart_adapters_forward (env : Env) (g : Globals) (buf : List (Fin 256)) (len : Nat) :
    (iio_uart_write env g buf len).1 = env.uart_write g.uart_desc buf len ∧
    (iio_uart_write env g buf len).2 =
      [⟨Call.uart_write g.uart_desc buf len, env.uart_write g.uart_desc buf len, none⟩] ∧
    (iio_uart_read env g buf len).1 = (env.uart_read g.uart_desc buf len).1 ∧
    (iio_uart_read env g buf len).2.1 = (env.uart_read g.uart_desc buf len).2 ∧
    (iio_uart_read env g buf len).2.2 =
      [⟨Call.uart_read g.uart_desc buf len, (env.uart_read g.uart_desc buf len).1, none⟩] ∧
    (∀ (P : Params) (pf : Platform) (irq_desc0 : Nat),
      (∀ e ∈ (main P pf env irq_desc0 g).trace, ∀ p, e.call = Call.iio_app_init p →
        p.iio_server_ops = ⟨FnRef.iio_uart_read, FnRef.iio_uart_write⟩) ∧
      (∀ e ∈ (main P pf env irq_desc0 g).trace, e.call.isUartInit = true →
        e.desc = some (main P pf env irq_desc0 g).globals.uart_desc)) := by
  refine ⟨rfl, rfl, rfl, rfl, rfl, ?_⟩
  intro P pf irq_desc0
  have hp := platform_init_trace_isPower P pf env
  refine ⟨?_, ?_⟩
  · intro e he p hc
    rcases main_cases P pf env irq_desc0 g with h | h | h | h | h | h | h | h <;>
      simp only [h, List.mem_append, List.mem_cons, List.mem_singleton, List.not_mem_nil,
        or_false] at he <;>
      casesm* _ ∨ _ <;>
      first
        | (have hpow := hp e ‹_›; rw [hc] at hpow; simp [Call.isPower] at hpow)
        | (subst e
           first
             | (rw [evAppInit_call] at hc
                cases hc
                rfl)
             | simp [evPlatform_call, evIrq_call, evUart_call, evEnable_call, evOut_call,
                 evIn_call, evApp_call] at hc)
  · intro e he hc
    rcases main_cases P pf env irq_desc0 g with h | h | h | h | h | h | h | h <;>
      simp only [h, List.mem_append, List.mem_cons, List.mem_singleton, List.not_mem_nil,
        or_false] at he ⊢ <;>
      casesm* _ ∨ _ <;>
      first
        | (have hpow := (isPower_classifiers (hp e ‹_›)).2.2.1; rw [hc] at hpow; cases hpow)
        | (subst e
           first
             | rfl
             | simp [evPlatform_call, evIrq_call, evUart_call, evEnable_call, evAppInit_call,
                 evOut_call, evIn_call, evApp_call, Call.isUartInit] at hc)
/-- C8 as stated fails: on the ADuCM profile, with the power initialisation and
both clock dividers succeeding and the vendor component initialisation
returning the failure status `-1`, `platform_init` still returns `SUCCESS`. -/
theorem platform_init_ignores_components_status :
    (⟨Call.adi_initComponents, FAILURE, none⟩ : Event) ∈
        (platform_init P0 aducm envComponentsFail).2 ∧
    (platform_init P0 aducm envComponentsFail).1 = SUCCESS := by
  decide

/-- C8 (amended): on the ADuCM profile `platform_init` performs the power
initialisation, then sets the HCLK divider to 1, then the PCLK divider to 1; the
first of these three steps that does not return `ADI_PWR_SUCCESS` ends the
sequence (no later step is invoked) and `platform_init` returns `FAILURE`; when
all three succeed, the vendor component initialisation is invoked last and
`platform_init` returns `SUCCESS` whatever that call returns.  So it returns
`SUCCESS` exactly when the first three steps succeed. -/
theorem platform_init_aducm_steps (P : Params) (env : Env) (bufs : StaticBuffers) :
    (env.adi_pwr_Init ≠ P.ADI_PWR_SUCCESS →
      platform_init P (.ADUCM_PLATFORM bufs) env =
        (FAILURE, [⟨Call.adi_pwr_Init, env.adi_pwr_Init, none⟩])) ∧
    (env.adi_pwr_Init = P.ADI_PWR_SUCCESS →
      env.adi_pwr_SetClockDivider .ADI_CLOCK_HCLK 1 ≠ P.ADI_PWR_SUCCESS →
      platform_init P (.ADUCM_PLATFORM bufs) env =
        (FAILURE, [⟨Call.adi_pwr_Init, env.adi_pwr_Init, none⟩,
          ⟨Call.adi_pwr_SetClockDivider .ADI_CLOCK_HCLK 1,
            env.adi_pwr_SetClockDivider .ADI_CLOCK_HCLK 1, none⟩])) ∧
    (env.adi_pwr_Init = P.ADI_PWR_SUCCESS →
      env.adi_pwr_SetClockDivider .ADI_CLOCK_HCLK 1 = P.ADI_PWR_SUCCESS →
      env.adi_pwr_SetClockDivider .ADI_CLOCK_PCLK 1 ≠ P.ADI_PWR_SUCCESS →
      platform_init P (.ADUCM_PLATFORM bufs) env =
        (FAILURE, [⟨Call.adi_pwr_Init, env.adi_pwr_Init, none⟩,
          ⟨Call.adi_pwr_SetClockDivider .ADI_CLOCK_HCLK 1,
            env.adi_pwr_SetClockDivider .ADI_CLOCK_HCLK 1, none⟩,
          ⟨Call.adi_pwr_SetClockDivider .ADI_CLOCK_PCLK 1,
            env.adi_pwr_SetClockDivider .ADI_CLOCK_PCLK 1, none⟩])) ∧
    (env.adi_pwr_Init = P.ADI_PWR_SUCCESS →
      env.adi_pwr_SetClockDivider .ADI_CLOCK_HCLK 1 = P.ADI_PWR_SUCCESS →
      env.adi_pwr_SetClockDivider .ADI_CLOCK_PCLK 1 = P.ADI_PWR_SUCCESS →
      platform_init P (.ADUCM_PLATFORM bufs) env =
        (SUCCESS, [⟨Call.adi_pwr_Init, env.adi_pwr_Init, none⟩,
          ⟨Call.adi_pwr_SetClockDivider .ADI_CLOCK_HCLK 1,
            env.adi_pwr_SetClockDivider .ADI_CLOCK_HCLK 1, none⟩,
          ⟨Call.adi_pwr_SetClockDivider .ADI_CLOCK_PCLK 1,
            env.adi_pwr_SetClockDivider .ADI_CLOCK_PCLK 1, none⟩,
          ⟨Call.adi_initComponents, env.adi_initComponents, none⟩])) ∧
    ((platform_init P (.ADUCM_PLATFORM bufs) env).1 = SUCCESS ↔
      env.adi_pwr_Init = P.ADI_PWR_SUCCESS ∧
      env.adi_pwr_SetClockDivider .ADI_CLOCK_HCLK 1 = P.ADI_PWR_SUCCESS ∧
      env.adi_pwr_SetClockDivider .ADI_CLOCK_PCLK 1 = P.ADI_PWR_SUCCESS) := by
  refine ⟨?_, ?_, ?_, ?_, ?_⟩
  · intro h1
    simp [platform_init, Ne.symm h1]
  · intro h1 h2
    simp [platform_init, h1, Ne.symm h2]
  · intro h1 h2 h3
    simp [platform_init, h1, h2, Ne.symm h3]
  · intro h1 h2 h3
    simp [platform_init, h1, h2, h3]
  · unfold platform_init
    simp only []
    split_ifs with h1 h2 h3 <;> simp [SUCCESS, FAILURE] <;> simp_all [eq_comm]

theorem platform_init_aducm_steps_witness :
    platform_init P0 (.ADUCM_PLATFORM bufs0) envPowerFails =
        (FAILURE, [⟨Call.adi_pwr_Init, envPowerFails.adi_pwr_Init, none⟩]) ∧
    platform_init P0 (.ADUCM_PLATFORM bufs0) envComponentsFail =
        (SUCCESS, [⟨Call.adi_pwr_Init, envComponentsFail.adi_pwr_Init, none⟩,
          ⟨Call.adi_pwr_SetClockDivider .ADI_CLOCK_HCLK 1,
            envComponentsFail.adi_pwr_SetClockDivider .ADI_CLOCK_HCLK 1, none⟩,
          ⟨Call.adi_pwr_SetClockDivider .ADI_CLOCK_PCLK 1,
            envComponentsFail.adi_pwr_SetClockDivider .ADI_CLOCK_PCLK 1, none⟩,
          ⟨Call.adi_initComponents, envComponentsFail.adi_initComponents, none⟩]) :=
  ⟨(platform_init_aducm_steps P0 envPowerFails bufs0).1 (by decide),
   (platform_init_aducm_steps P0 envComponentsFail bufs0).2.2.2.1
     (by decide) (by decide) (by decide)⟩
theorem demoInitParams_append (l₁ l₂ : List Event) :
    demoInitParams (l₁ ++ l₂) = demoInitParams l₁ ++ demoInitParams l₂ := by
  induction l₁ with
  | nil => rfl
  | cons e t ih =>
    simp only [List.cons_append, demoInitParams]
    split <;> simp [ih]

theorem demoInitParams_of_isPower (l : List Event) (h : ∀ e ∈ l, e.call.isPower = true) :
    demoInitParams l = [] := by
  induction l with
  | nil => rfl
  | cons e t ih =>
    have he := h e (List.mem_cons_self _ _)
    have ht := ih fun a ha => h a (List.mem_cons_of_mem _ ha)
    simp only [demoInitParams]
    split
    · rename_i p hc
      rw [hc] at he
      cases he
    · exact ht

/-- C9: the configurations `main` passes to `iio_demo_init` are, in order, an
initial part of: (`"demo_device_output"`, 4 channels, `OUTPUT_BASE_ADDRESS`),
(`"demo_device_input"`, 4 channels, `INPUT_BASE_ADDRESS`); the first is passed
as soon as the stages before it succeed and the second as soon as the output
device's `iio_demo_init` succeeds as well; the two names differ; and on the
ADuCM profile the region of `OUTPUT_SIZE` bytes at `OUTPUT_BASE_ADDRESS`
(`out_buff`) and the region of `INPUT_SIZE` bytes at `INPUT_BASE_ADDRESS`
(`in_buff`) do not overlap. -/
theorem main_device_configurations (P : Params) (pf : Platform) (env : Env) (irq_desc0 : Nat)
    (g : Globals) :
    demoInitParams (main P pf env irq_desc0 g).trace <+:
      [⟨"demo_device_output", 4, OUTPUT_BASE_ADDRESS P pf⟩,
       ⟨"demo_device_input", 4, INPUT_BASE_ADDRESS P pf⟩] ∧
    (0 ≤ (platform_init P pf env).1 → 0 ≤ (env.irq_ctrl_init (irqPar P pf)).1 →
      0 ≤ (env.uart_init (uartPar P pf irq_desc0)).1 →
      0 ≤ env.irq_global_enable (env.irq_ctrl_init (irqPar P pf)).2 →
      0 ≤ (env.iio_app_init appPar).1 →
      [(⟨"demo_device_output", 4, OUTPUT_BASE_ADDRESS P pf⟩ : iio_demo_init_param)] <+:
          demoInitParams (main P pf env irq_desc0 g).trace ∧
      (0 ≤ (env.iio_demo_init ⟨"demo_device_output", 4, OUTPUT_BASE_ADDRESS P pf⟩).1 →
        demoInitParams (main P pf env irq_desc0 g).trace =
          [⟨"demo_device_output", 4, OUTPUT_BASE_ADDRESS P pf⟩,
           ⟨"demo_device_input", 4, INPUT_BASE_ADDRESS P pf⟩])) ∧
    ("demo_device_output" : String) ≠ "demo_device_input" ∧
    (∀ bufs : StaticBuffers, pf = .ADUCM_PLATFORM bufs →
      OUTPUT_BASE_ADDRESS P pf = bufs.out_buff ∧ INPUT_BASE_ADDRESS P pf = bufs.in_buff ∧
      OUTPUT_SIZE pf = MAX_BUFF_SIZE ∧ INPUT_SIZE pf = MAX_BUFF_SIZE ∧
      (INPUT_BASE_ADDRESS P pf + INPUT_SIZE pf ≤ OUTPUT_BASE_ADDRESS P pf ∨
       OUTPUT_BASE_ADDRESS P pf + OUTPUT_SIZE pf ≤ INPUT_BASE_ADDRESS P pf)) := by
  have hp := demoInitParams_of_isPower _ (platform_init_trace_isPower P pf env)
  refine ⟨?_, ?_, by decide, ?_⟩
  · rcases main_cases P pf env irq_desc0 g with h | h | h | h | h | h | h | h <;>
      simp only [h, demoInitParams_append, hp, List.nil_append] <;>
      simp [demoInitParams, evPlatform_call, evIrq_call, evUart_call, evEnable_call,
        evAppInit_call, evOut_call, evIn_call, evApp_call, outPar, inPar, List.prefix_cons_iff]
  · intro h0 h1 h2 h3 h4
    have k0 : 0 ≤ (evPlatform P pf env).status := h0
    have k1 : 0 ≤ (evIrq P pf env).status := h1
    have k2 : 0 ≤ (evUart P pf env irq_desc0).status := h2
    have k3 : 0 ≤ (evEnable P pf env).status := h3
    have k4 : 0 ≤ (evAppInit env).status := h4
    constructor
    · rcases main_cases P pf env irq_desc0 g with h | h | h | h | h | h | h | h
      all_goals first
        | (exfalso; omega)
        | (simp only [h, demoInitParams_append, hp, List.nil_append]
           simp [demoInitParams, evPlatform_call, evIrq_call, evUart_call, evEnable_call,
             evAppInit_call, evOut_call, evIn_call, evApp_call, outPar, inPar,
             List.prefix_cons_iff])
    · intro h5
      have k5 : 0 ≤ (evOut P pf env).status := h5
      rcases main_cases P pf env irq_desc0 g with h | h | h | h | h | h | h | h
      all_goals first
        | (exfalso; omega)
        | (simp only [h, demoInitParams_append, hp, List.nil_append]
           simp [demoInitParams, evPlatform_call, evIrq_call, evUart_call, evEnable_call,
             evAppInit_call, evOut_call, evIn_call, evApp_call, outPar, inPar])
  · rintro bufs rfl
    have h1 := bufs.in_buff_fits
    have h2 := bufs.out_buff_fits
    have h3 := bufs.distinct_objects
    simp only [MAX_BUFF_SIZE] at h1 h2 h3
    have e1 : OUTPUT_BASE_ADDRESS P (.ADUCM_PLATFORM bufs) = bufs.out_buff :=
      Nat.mod_eq_of_lt (by omega)
    have e2 : INPUT_BASE_ADDRESS P (.ADUCM_PLATFORM bufs) = bufs.in_buff :=
      Nat.mod_eq_of_lt (by omega)
    refine ⟨e1, e2, rfl, rfl, ?_⟩
    rw [e1, e2]
    simp only [INPUT_SIZE, OUTPUT_SIZE, MAX_BUFF_SIZE]
    omega

theorem main_device_configurations_witness :
    ([(⟨"demo_device_output", 4, OUTPUT_BASE_ADDRESS P0 aducm⟩ : iio_demo_init_param)] <+:
        demoInitParams (main P0 aducm (envOk 0) 0 ⟨0⟩).trace ∧
      (0 ≤ ((envOk 0).iio_demo_init ⟨"demo_device_output", 4, OUTPUT_BASE_ADDRESS P0 aducm⟩).1 →
        demoInitParams (main P0 aducm (envOk 0) 0 ⟨0⟩).trace =
          [⟨"demo_device_output", 4, OUTPUT_BASE_ADDRESS P0 aducm⟩,
           ⟨"demo_device_input", 4, INPUT_BASE_ADDRESS P0 aducm⟩])) ∧
    (OUTPUT_BASE_ADDRESS P0 aducm = bufs0.out_buff ∧ INPUT_BASE_ADDRESS P0 aducm = bufs0.in_buff ∧
      OUTPUT_SIZE aducm = MAX_BUFF_SIZE ∧ INPUT_SIZE aducm = MAX_BUFF_SIZE ∧
      (INPUT_BASE_ADDRESS P0 aducm + INPUT_SIZE aducm ≤ OUTPUT_BASE_ADDRESS P0 aducm ∨
       OUTPUT_BASE_ADDRESS P0 aducm + OUTPUT_SIZE aducm ≤ INPUT_BASE_ADDRESS P0 aducm)) :=
  ⟨(main_device_configurations P0 aducm (envOk 0) 0 ⟨0⟩).2.1 (by decide) (by decide)
      (by decide) (by decide) (by decide),
   (main_device_configurations P0 aducm (envOk 0) 0 ⟨0⟩).2.2.2 bufs0 rfl⟩

/-- Every event of a run is a power-service call of `platform_init` or one of
the eight named events. -/
theorem main_trace_mem (P : Params) (pf : Platform) (env : Env) (irq_desc0 : Nat) (g : Globals) :
    ∀ e ∈ (main P pf env irq_desc0 g).trace,
      e ∈ (platform_init P pf env).2 ∨ e = evPlatform P pf env ∨ e = evIrq P pf env ∨
      e = evUart P pf env irq_desc0 ∨ e = evEnable P pf env ∨ e = evAppInit env ∨
      e = evOut P pf env ∨ e = evIn P pf env ∨ e = evApp env := by
  intro e he
  rcases main_cases P pf env irq_desc0 g with h | h | h | h | h | h | h | h <;>
    simp only [h, List.mem_append, List.mem_cons, List.mem_singleton, List.not_mem_nil,
      or_false] at he <;>
    casesm* _ ∨ _ <;> simp [*]

/-- C10: a failed bring-up is never reported as success.  If `main` returns
without having invoked `iio_app`, its result is negative; `main` invokes
`iio_app` exactly when no bring-up stage of the run returned a negative status,
which is exactly when `platform_init` returned `SUCCESS` and each of
`irq_ctrl_init`, `uart_init`, `irq_global_enable`, `iio_app_init`, the output
`iio_demo_init` and the input `iio_demo_init` returned a non-negative status.
In terms of the collaborators: `main` invokes `iio_app` if and only if
`platform_init` returns `SUCCESS` and every later collaborator returns a
non-negative status on the arguments `main` passes it (a positive status counts
as success); otherwise `iio_app` is not invoked and the result is negative. -/
theorem main_failure_never_reported_as_success (P : Params) (pf : Platform) (env : Env)
    (irq_desc0 : Nat) (g : Globals) :
    ((∀ e ∈ (main P pf env irq_desc0 g).trace, e.call.isApp = false) →
      (main P pf env irq_desc0 g).status < 0) ∧
    ((∃ e ∈ (main P pf env irq_desc0 g).trace, e.call.isApp = true) ↔
      ∀ e ∈ (main P pf env irq_desc0 g).trace, e.call.isStage = true → 0 ≤ e.status) ∧
    ((∃ e ∈ (main P pf env irq_desc0 g).trace, e.call.isApp = true) ↔
      (∃ e ∈ (main P pf env irq_desc0 g).trace,
        e.call.isPlatformInit = true ∧ e.status = SUCCESS) ∧
      (∃ e ∈ (main P pf env irq_desc0 g).trace, e.call.isIrqCtrlInit = true ∧ 0 ≤ e.status) ∧
      (∃ e ∈ (main P pf env irq_desc0 g).trace, e.call.isUartInit = true ∧ 0 ≤ e.status) ∧
      (∃ e ∈ (main P pf env irq_desc0 g).trace,
        e.call.isIrqGlobalEnable = true ∧ 0 ≤ e.status) ∧
      (∃ e ∈ (main P pf env irq_desc0 g).trace, e.call.isAppInit = true ∧ 0 ≤ e.status) ∧
      (∃ e ∈ (main P pf env irq_desc0 g).trace,
        e.call.isDemoInit "demo_device_output" = true ∧ 0 ≤ e.status) ∧
      (∃ e ∈ (main P pf env irq_desc0 g).trace,
        e.call.isDemoInit "demo_device_input" = true ∧ 0 ≤ e.status)) ∧
    ((∃ e ∈ (main P pf env irq_desc0 g).trace, e.call.isApp = true) ↔
      (platform_init P pf env).1 = SUCCESS ∧
      0 ≤ (env.irq_ctrl_init (irqPar P pf)).1 ∧
      0 ≤ (env.uart_init (uartPar P pf irq_desc0)).1 ∧
      0 ≤ env.irq_global_enable (env.irq_ctrl_init (irqPar P pf)).2 ∧
      0 ≤ (env.iio_app_init appPar).1 ∧
      0 ≤ (env.iio_demo_init (outPar P pf)).1 ∧
      0 ≤ (env.iio_demo_init (inPar P pf)).1) ∧
    (¬ ((platform_init P pf env).1 = SUCCESS ∧
        0 ≤ (env.irq_ctrl_init (irqPar P pf)).1 ∧
        0 ≤ (env.uart_init (uartPar P pf irq_desc0)).1 ∧
        0 ≤ env.irq_global_enable (env.irq_ctrl_init (irqPar P pf)).2 ∧
        0 ≤ (env.iio_app_init appPar).1 ∧
        0 ≤ (env.iio_demo_init (outPar P pf)).1 ∧
        0 ≤ (env.iio_demo_init (inPar P pf)).1) →
      (main P pf env irq_desc0 g).status < 0 ∧
      ∀ e ∈ (main P pf env irq_desc0 g).trace, e.call.isApp = false) := by
  have hp := platform_init_trace_isPower P pf env
  have hcls := fun e he => isPower_classifiers (hp e he)
  have hns := fun e he => isPower_not_isStage (hp e he)
  have happ : ∀ e ∈ (platform_init P pf env).2, e.call.isApp = false :=
    fun e he => (hcls e he).2.2.2.2.2.1
  have hA : (∃ e ∈ (main P pf env irq_desc0 g).trace, e.call.isApp = true) ↔
      0 ≤ (evPlatform P pf env).status ∧ 0 ≤ (evIrq P pf env).status ∧
      0 ≤ (evUart P pf env irq_desc0).status ∧ 0 ≤ (evEnable P pf env).status ∧
      0 ≤ (evAppInit env).status ∧ 0 ≤ (evOut P pf env).status ∧
      0 ≤ (evIn P pf env).status := by
    rcases main_cases P pf env irq_desc0 g with h | h | h | h | h | h | h | h
    all_goals
      constructor
      · rintro ⟨e, he, hc⟩
        simp only [h, List.mem_append, List.mem_cons, List.mem_singleton, List.not_mem_nil,
          or_false] at he
        casesm* _ ∨ _ <;>
        first
          | (refine ⟨?_, ?_, ?_, ?_, ?_, ?_, ?_⟩ <;> simp only [h])
          | (rw [happ e ‹_›] at hc; cases hc)
          | (subst e; cases hc)
      · intro h'
        first
          | (exfalso; omega)
          | exact ⟨evApp env, by simp [h], rfl⟩
  have hB : (∀ e ∈ (main P pf env irq_desc0 g).trace, e.call.isStage = true → 0 ≤ e.status) ↔
      0 ≤ (evPlatform P pf env).status ∧ 0 ≤ (evIrq P pf env).status ∧
      0 ≤ (evUart P pf env irq_desc0).status ∧ 0 ≤ (evEnable P pf env).status ∧
      0 ≤ (evAppInit env).status ∧ 0 ≤ (evOut P pf env).status ∧
      0 ≤ (evIn P pf env).status := by
    rcases main_cases P pf env irq_desc0 g with h | h | h | h | h | h | h | h
    · exact ⟨fun H => absurd (H (evPlatform P pf env) (by simp [h]) rfl) (by omega),
        fun h' => by omega⟩
    · exact ⟨fun H => absurd (H (evIrq P pf env) (by simp [h]) rfl) (by omega),
        fun h' => by omega⟩
    · exact ⟨fun H => absurd (H (evUart P pf env irq_desc0) (by simp [h]) rfl) (by omega),
        fun h' => by omega⟩
    · exact ⟨fun H => absurd (H (evEnable P pf env) (by simp [h]) rfl) (by omega),
        fun h' => by omega⟩
    · exact ⟨fun H => absurd (H (evAppInit env) (by simp [h]) rfl) (by omega),
        fun h' => by omega⟩
    · exact ⟨fun H => absurd (H (evOut P pf env) (by simp [h]) rfl) (by omega),
        fun h' => by omega⟩
    · exact ⟨fun H => absurd (H (evIn P pf env) (by simp [h]) rfl) (by omega),
        fun h' => by omega⟩
    · refine ⟨fun _ => ⟨h.1, h.2.1, h.2.2.1, h.2.2.2.1, h.2.2.2.2.1, h.2.2.2.2.2.1,
        h.2.2.2.2.2.2.1⟩, ?_⟩
      intro _ e he hs
      simp only [h, List.mem_append, List.mem_cons, List.mem_singleton, List.not_mem_nil,
        or_false] at he
      casesm* _ ∨ _ <;>
      first
        | (rw [hns e ‹_›] at hs; cases hs)
        | (subst e; simp only [h])
        | (subst e; cases hs)
  have hC : ((∃ e ∈ (main P pf env irq_desc0 g).trace,
        e.call.isPlatformInit = true ∧ e.status = SUCCESS) ∧
      (∃ e ∈ (main P pf env irq_desc0 g).trace, e.call.isIrqCtrlInit = true ∧ 0 ≤ e.status) ∧
      (∃ e ∈ (main P pf env irq_desc0 g).trace, e.call.isUartInit = true ∧ 0 ≤ e.status) ∧
      (∃ e ∈ (main P pf env irq_desc0 g).trace,
        e.call.isIrqGlobalEnable = true ∧ 0 ≤ e.status) ∧
      (∃ e ∈ (main P pf env irq_desc0 g).trace, e.call.isAppInit = true ∧ 0 ≤ e.status) ∧
      (∃ e ∈ (main P pf env irq_desc0 g).trace,
        e.call.isDemoInit "demo_device_output" = true ∧ 0 ≤ e.status) ∧
      (∃ e ∈ (main P pf env irq_desc0 g).trace,
        e.call.isDemoInit "demo_device_input" = true ∧ 0 ≤ e.status)) ↔
      0 ≤ (evPlatform P pf env).status ∧ 0 ≤ (evIrq P pf env).status ∧
      0 ≤ (evUart P pf env irq_desc0).status ∧ 0 ≤ (evEnable P pf env).status ∧
      0 ≤ (evAppInit env).status ∧ 0 ≤ (evOut P pf env).status ∧
      0 ≤ (evIn P pf env).status := by
    have hmem := main_trace_mem P pf env irq_desc0 g
    have hst := platform_init_status P pf env
    constructor
    · rintro ⟨⟨e1, he1, hc1, hs1⟩, ⟨e2, he2, hc2, hs2⟩, ⟨e3, he3, hc3, hs3⟩, ⟨e4, he4, hc4, hs4⟩,
        ⟨e5, he5, hc5, hs5⟩, ⟨e6, he6, hc6, hs6⟩, ⟨e7, he7, hc7, hs7⟩⟩
      refine ⟨?_, ?_, ?_, ?_, ?_, ?_, ?_⟩
      · rcases hmem e1 he1 with h | h | h | h | h | h | h | h | h
        · rw [(hcls e1 h).1] at hc1
          cases hc1
        all_goals subst h
        · rw [hs1]
          decide
        all_goals cases hc1
      · rcases hmem e2 he2 with h | h | h | h | h | h | h | h | h
        · rw [(hcls e2 h).2.1] at hc2
          cases hc2
        all_goals subst h
        · cases hc2
        · exact hs2
        all_goals cases hc2
      · rcases hmem e3 he3 with h | h | h | h | h | h | h | h | h
        · rw [(hcls e3 h).2.2.1] at hc3
          cases hc3
        all_goals subst h
        · cases hc3
        · cases hc3
        · exact hs3
        all_goals cases hc3
      · rcases hmem e4 he4 with h | h | h | h | h | h | h | h | h
        · rw [(hcls e4 h).2.2.2.1] at hc4
          cases hc4
        all_goals subst h
        · cases hc4
        · cases hc4
        · cases hc4
        · exact hs4
        all_goals cases hc4
      · rcases hmem e5 he5 with h | h | h | h | h | h | h | h | h
        · rw [(hcls e5 h).2.2.2.2.1] at hc5
          cases hc5
        all_goals subst h
        · cases hc5
        · cases hc5
        · cases hc5
        · cases hc5
        · exact hs5
        all_goals cases hc5
      · rcases hmem e6 he6 with h | h | h | h | h | h | h | h | h
        · rw [(hcls e6 h).2.2.2.2.2.2] at hc6
          cases hc6
        all_goals subst h
        all_goals first
          | exact hs6
          | simp [evPlatform_call, evIrq_call, evUart_call, evEnable_call, evAppInit_call,
              evIn_call, evApp_call, inPar, Call.isDemoInit] at hc6
      · rcases hmem e7 he7 with h | h | h | h | h | h | h | h | h
        · rw [(hcls e7 h).2.2.2.2.2.2] at hc7
          cases hc7
        all_goals subst h
        all_goals first
          | exact hs7
          | simp [evPlatform_call, evIrq_call, evUart_call, evEnable_call, evAppInit_call,
              evOut_call, evApp_call, outPar, Call.isDemoInit] at hc7
    · intro h'
      rcases main_cases P pf env irq_desc0 g with h | h | h | h | h | h | h | h
      all_goals first
        | (exfalso; omega)
        | skip
      have hsucc : (evPlatform P pf env).status = SUCCESS := by
        rcases hst with hst | hst
        · exact hst
        · have h0 := h.1
          have : (evPlatform P pf env).status = FAILURE := hst
          rw [this] at h0
          exact absurd h0 (by decide)
      exact ⟨⟨evPlatform P pf env, by simp [h], rfl, hsucc⟩,
        ⟨evIrq P pf env, by simp [h], rfl, h'.2.1⟩,
        ⟨evUart P pf env irq_desc0, by simp [h], rfl, h'.2.2.1⟩,
        ⟨evEnable P pf env, by simp [h], rfl, h'.2.2.2.1⟩,
        ⟨evAppInit env, by simp [h], rfl, h'.2.2.2.2.1⟩,
        ⟨evOut P pf env, by simp [h], by simp [evOut_call, outPar, Call.isDemoInit],
          h'.2.2.2.2.2.1⟩,
        ⟨evIn P pf env, by simp [h], by simp [evIn_call, inPar, Call.isDemoInit],
          h'.2.2.2.2.2.2⟩⟩
  have hD : (0 ≤ (evPlatform P pf env).status ∧ 0 ≤ (evIrq P pf env).status ∧
      0 ≤ (evUart P pf env irq_desc0).status ∧ 0 ≤ (evEnable P pf env).status ∧
      0 ≤ (evAppInit env).status ∧ 0 ≤ (evOut P pf env).status ∧
      0 ≤ (evIn P pf env).status) ↔
      ((platform_init P pf env).1 = SUCCESS ∧
      0 ≤ (env.irq_ctrl_init (irqPar P pf)).1 ∧
      0 ≤ (env.uart_init (uartPar P pf irq_desc0)).1 ∧
      0 ≤ env.irq_global_enable (env.irq_ctrl_init (irqPar P pf)).2 ∧
      0 ≤ (env.iio_app_init appPar).1 ∧
      0 ≤ (env.iio_demo_init (outPar P pf)).1 ∧
      0 ≤ (env.iio_demo_init (inPar P pf)).1) := by
    have hst := platform_init_status P pf env
    constructor
    · rintro ⟨a0, a1, a2, a3, a4, a5, a6⟩
      refine ⟨?_, a1, a2, a3, a4, a5, a6⟩
      rcases hst with hst | hst
      · exact hst
      · have a0' : 0 ≤ (platform_init P pf env).1 := a0
        rw [hst] at a0'
        exact absurd a0' (by decide)
    · rintro ⟨a0, a1, a2, a3, a4, a5, a6⟩
      refine ⟨?_, a1, a2, a3, a4, a5, a6⟩
      show 0 ≤ (platform_init P pf env).1
      rw [a0]
      decide
  have hfirst : (∀ e ∈ (main P pf env irq_desc0 g).trace, e.call.isApp = false) →
      (main P pf env irq_desc0 g).status < 0 := by
    intro hno
    rcases main_cases P pf env irq_desc0 g with h | h | h | h | h | h | h | h
    all_goals first
      | (simp only [h, FAILURE] <;> omega)
      | (have hmem : evApp env ∈ (main P pf env irq_desc0 g).trace := by simp [h]
         have hfalse := hno (evApp env) hmem
         cases hfalse)
  refine ⟨hfirst, hA.trans hB.symm, hA.trans hC.symm, hA.trans hD, ?_⟩
  intro hnot
  have hno : ∀ e ∈ (main P pf env irq_desc0 g).trace, e.call.isApp = false := by
    intro e he
    cases hc : e.call.isApp with
    | false => rfl
    | true => exact absurd ((hA.trans hD).1 ⟨e, he, hc⟩) hnot
  exact ⟨hfirst hno, hno⟩

theorem main_failure_never_reported_as_success_witness :
    (main P0 aducm envUartFails 0 ⟨0⟩).status < 0 ∧
    (∃ e ∈ (main P0 aducm (envOk 5) 0 ⟨0⟩).trace, e.call.isApp = true) ∧
    ((main P0 xilinx envEnableFails 0 ⟨0⟩).status < 0 ∧
      ∀ e ∈ (main P0 xilinx envEnableFails 0 ⟨0⟩).trace, e.call.isApp = false) :=
  ⟨(main_failure_never_reported_as_success P0 aducm envUartFails 0 ⟨0⟩).1 (by decide),
   (main_failure_never_reported_as_success P0 aducm (envOk 5) 0 ⟨0⟩).2.2.2.1.2 (by decide),
   (main_failure_never_reported_as_success P0 xilinx envEnableFails 0 ⟨0⟩).2.2.2.2 (by decide)⟩

end IioDemo
